import Mathlib

/-!
Verification of the asset-normalization and parameter-binding layer of a
browser 3D-viewer demo (src/index.js). The program is embedded shallowly:
numeric values are exact rationals (every constant in the program is an
exact decimal, and the claims are about exact algebraic relations, so ℚ is
a faithful carrier); JavaScript division is modelled so that a zero divisor
yields `none` (the non-finite IEEE results Infinity / NaN); fallible
callbacks (those that may throw a TypeError) return `Option`.
-/

/-- A 3-component vector of exact rationals (mirrors THREE.Vector3 as used
by the program: only component reads/writes, subtraction and scaling). -/
structure Vec3 where
  x : ℚ
  y : ℚ
  z : ℚ
deriving DecidableEq, Repr

/-- Componentwise scaling of a vector by a scalar, as produced by
`scale.setScalar(s)` acting on local coordinates. -/
def scaleVec (s : ℚ) (v : Vec3) : Vec3 :=
  ⟨s * v.x, s * v.y, s * v.z⟩

/-- An axis-aligned bounding box (mirrors THREE.Box3: a min and a max corner). -/
structure Box3 where
  min : Vec3
  max : Vec3
deriving DecidableEq, Repr

/-- `box.getSize(...)`: the extents of the box, componentwise max − min. -/
def Box3.getSize (b : Box3) : Vec3 :=
  ⟨b.max.x - b.min.x, b.max.y - b.min.y, b.max.z - b.min.z⟩

/-- `box.getCenter(...)`: the midpoint of the box. -/
def Box3.getCenter (b : Box3) : Vec3 :=
  ⟨(b.min.x + b.max.x) / 2, (b.min.y + b.max.y) / 2, (b.min.z + b.max.z) / 2⟩

/-- JavaScript floating-point division restricted to exact rationals:
a zero divisor produces a non-finite result (Infinity or NaN), modelled as
`none`; otherwise the exact quotient. -/
def jsDiv (a b : ℚ) : Option ℚ :=
  if b = 0 then none else some (a / b)

/-- The canonical fit size: the literal `5` in `scaleFactor = 5 / maxDimension`
(src/index.js line 49), called targetSize in the design description. -/
def targetSize : ℚ := 5

/-- `Math.max(size.x, size.y, size.z)` (src/index.js line 48). -/
def maxDimension (size : Vec3) : ℚ :=
  max size.x (max size.y size.z)

/-- The transform the normalization writes onto the model root:
`scale.setScalar(scaleFactor)` stores one uniform scalar, and the position is
a vector. World point of a local point p is `scaleVec scale p + position`
(three.js applies scale before translation; rotation stays identity here). -/
structure ModelTransform where
  scale : ℚ
  position : Vec3
deriving DecidableEq, Repr

/-- `scaleFactor = 5 / maxDimension` (src/index.js line 49): `none` when the
divisor is zero (JS yields Infinity, a non-finite scale). -/
def scaleFactor (box : Box3) : Option ℚ :=
  jsDiv targetSize (maxDimension box.getSize)

/-- The normalization of src/index.js lines 46–55, for a freshly loaded root
whose initial transform is the identity (position (0,0,0), scale 1), so the
world-space box from `setFromObject` coincides with the local box:
compute the box, scale by `scaleFactor` uniformly, subtract the (unscaled)
box center from the position, then overwrite the y position with
`-box.min.y * scaleFactor` via `setY`. -/
def normalizeModel (box : Box3) : Option ModelTransform :=
  (scaleFactor box).map fun s =>
    { scale := s,
      position := ⟨0 - box.getCenter.x, -box.min.y * s, 0 - box.getCenter.z⟩ }

/-- The world-space image of a local point under the transform the
normalization produced: scale first, then translate. -/
def worldPoint (t : ModelTransform) (p : Vec3) : Vec3 :=
  ⟨p.x * t.scale + t.position.x, p.y * t.scale + t.position.y, p.z * t.scale + t.position.z⟩

lemma maxDimension_scaleVec (s : ℚ) (v : Vec3) (hs : 0 ≤ s) :
    maxDimension (scaleVec s v) = s * maxDimension v := by
  simp only [maxDimension, scaleVec]
  rw [mul_max_of_nonneg _ _ hs, mul_max_of_nonneg _ _ hs]

/-- C1: a model with positive extents gets the uniform scale
`targetSize / maxDimension`, and the maximum of the scaled extents is exactly
the target size of 5 units; the bounding box (2,10,4) yields scale 1/2. -/
theorem normalize_hits_targetSize (box : Box3)
    (hx : 0 < box.getSize.x) (_hy : 0 < box.getSize.y) (_hz : 0 < box.getSize.z) :
    ∃ t : ModelTransform, normalizeModel box = some t ∧
      t.scale = targetSize / maxDimension box.getSize ∧
      maxDimension (scaleVec t.scale box.getSize) = targetSize := by
  have hmax : 0 < maxDimension box.getSize := lt_max_of_lt_left hx
  have hne : maxDimension box.getSize ≠ 0 := ne_of_gt hmax
  have hsf : scaleFactor box = some (targetSize / maxDimension box.getSize) := by
    simp [scaleFactor, jsDiv, hne]
  refine ⟨{ scale := targetSize / maxDimension box.getSize,
            position := ⟨0 - box.getCenter.x,
              -box.min.y * (targetSize / maxDimension box.getSize), 0 - box.getCenter.z⟩ },
    ?_, rfl, ?_⟩
  · rw [normalizeModel, hsf, Option.map_some']
  · have hs : (0 : ℚ) ≤ targetSize / maxDimension box.getSize :=
      div_nonneg (by norm_num [targetSize]) hmax.le
    rw [maxDimension_scaleVec _ _ hs]
    field_simp

/-- Witness for C1 at the spec scenario: box min (0,0,0), max (2,10,4) has
positive extents, normalization succeeds, its scale is 5/10 = 1/2 and the
scaled extents peak at 5. -/
theorem normalize_hits_targetSize_witness :
    (∃ t : ModelTransform,
        normalizeModel ⟨⟨0, 0, 0⟩, ⟨2, 10, 4⟩⟩ = some t ∧
        t.scale = targetSize / maxDimension (Box3.getSize ⟨⟨0, 0, 0⟩, ⟨2, 10, 4⟩⟩) ∧
        maxDimension (scaleVec t.scale (Box3.getSize ⟨⟨0, 0, 0⟩, ⟨2, 10, 4⟩⟩)) = targetSize) ∧
      targetSize / maxDimension (Box3.getSize ⟨⟨0, 0, 0⟩, ⟨2, 10, 4⟩⟩) = 1 / 2 :=
  ⟨normalize_hits_targetSize ⟨⟨0, 0, 0⟩, ⟨2, 10, 4⟩⟩
      (by norm_num [Box3.getSize]) (by norm_num [Box3.getSize]) (by norm_num [Box3.getSize]),
    by norm_num [Box3.getSize, maxDimension, targetSize]⟩

/-- C2 counterexample: for the degenerate box whose min and max coincide at
the origin (maximum dimension 0), normalization is not a graceful no-op with
scale factor 1 — the division by zero yields a non-finite scale (`none`). -/
theorem degenerate_scale_not_one :
    normalizeModel ⟨⟨0, 0, 0⟩, ⟨0, 0, 0⟩⟩ ≠ some { scale := 1, position := ⟨0, 0, 0⟩ } := by
  have hsf : scaleFactor ⟨⟨0, 0, 0⟩, ⟨0, 0, 0⟩⟩ = none := by
    norm_num [scaleFactor, jsDiv, maxDimension, Box3.getSize]
  simp [normalizeModel, hsf]

/-- C2 amended: for any model whose bounding box has zero maximum dimension,
the code divides by zero — `scaleFactor = 5 / 0` is non-finite (Infinity in
JS) and normalization produces no finite transform; there is no guard and no
scale-1 no-op. -/
theorem degenerate_normalize_nonfinite (box : Box3)
    (h : maxDimension box.getSize = 0) :
    scaleFactor box = none ∧ normalizeModel box = none := by
  have hsf : scaleFactor box = none := by simp [scaleFactor, jsDiv, h]
  exact ⟨hsf, by simp [normalizeModel, hsf]⟩

/-- Witness for the amended C2 at the concrete degenerate box with all
corners at the origin. -/
theorem degenerate_normalize_nonfinite_witness :
    scaleFactor ⟨⟨0, 0, 0⟩, ⟨0, 0, 0⟩⟩ = none ∧ normalizeModel ⟨⟨0, 0, 0⟩, ⟨0, 0, 0⟩⟩ = none :=
  degenerate_normalize_nonfinite ⟨⟨0, 0, 0⟩, ⟨0, 0, 0⟩⟩
    (by norm_num [maxDimension, Box3.getSize])

/-- C3: evaluation at the failing input, box min (0,0,0), max (2,10,4).
Normalization subtracts the unscaled box center from the position while the
model is scaled by 1/2, so the scaled model's world-space center sits at
x = −1/2, z = −1 — not at the horizontal origin — although the lowest point's
y coordinate does equal 0 as claimed. -/
theorem normalize_not_horizontally_centered :
    ∃ t : ModelTransform, normalizeModel ⟨⟨0, 0, 0⟩, ⟨2, 10, 4⟩⟩ = some t ∧
      worldPoint t (Box3.getCenter ⟨⟨0, 0, 0⟩, ⟨2, 10, 4⟩⟩) = ⟨-(1 / 2), 5 / 2, -1⟩ ∧
      (worldPoint t (Box3.getCenter ⟨⟨0, 0, 0⟩, ⟨2, 10, 4⟩⟩)).x ≠ 0 ∧
      (worldPoint t (Box3.getCenter ⟨⟨0, 0, 0⟩, ⟨2, 10, 4⟩⟩)).z ≠ 0 ∧
      (worldPoint t (⟨⟨0, 0, 0⟩, ⟨2, 10, 4⟩⟩ : Box3).min).y = 0 := by
  have hmd : maxDimension (Box3.getSize ⟨⟨0, 0, 0⟩, ⟨2, 10, 4⟩⟩) = 10 := by
    norm_num [maxDimension, Box3.getSize, max_def]
  have hsf : scaleFactor ⟨⟨0, 0, 0⟩, ⟨2, 10, 4⟩⟩ = some (1 / 2) := by
    rw [scaleFactor, hmd, jsDiv]
    norm_num [targetSize]
  refine ⟨⟨1 / 2, ⟨-1, 0, -2⟩⟩, ?_, ?_, by norm_num [worldPoint, Box3.getCenter], by
    norm_num [worldPoint, Box3.getCenter], by norm_num [worldPoint]⟩
  · rw [normalizeModel, hsf, Option.map_some']
    norm_num [Box3.getCenter]
  · norm_num [worldPoint, Box3.getCenter]

/-- The tone-mapping enum tags offered by the GUI dropdown (src/index.js
lines 95–100): the option strings name THREE constants. -/
inductive ToneMappingTag
  | NoToneMapping
  | LinearToneMapping
  | ReinhardToneMapping
  | CineonToneMapping
  | ACESFilmicToneMapping
deriving DecidableEq, Repr

/-- `THREE[window.toneMapping]` (src/index.js line 102): resolves the tag to
the library's numeric tone-mapping constant. -/
def resolveToneMapping : ToneMappingTag → ℕ
  | .NoToneMapping => 0
  | .LinearToneMapping => 1
  | .ReinhardToneMapping => 2
  | .CineonToneMapping => 3
  | .ACESFilmicToneMapping => 4

/-- A mesh material, with exactly the fields the program writes. JavaScript
creates `toneMapping` / `toneMappingExposure` properties on first assignment,
so they are `Option` (`none` = property absent). -/
structure Material where
  metalness : ℚ
  roughness : ℚ
  toneMapping : Option ℕ
  toneMappingExposure : Option ℚ
  needsUpdate : Bool
deriving DecidableEq, Repr

/-- A mesh child of the model: its material and the shadow flags the load
pass sets. -/
structure Mesh where
  material : Material
  castShadow : Bool
  receiveShadow : Bool
deriving DecidableEq, Repr

/-- The renderer's tone-mapping state (src/index.js lines 19–20). -/
structure Renderer where
  toneMapping : ℕ
  toneMappingExposure : ℚ
deriving DecidableEq, Repr

/-- The texture assigned to `scene.environment`; `intensity` is a property
the program creates on first write (`Option`, `none` = absent). -/
structure Environment where
  intensity : Option ℚ
deriving DecidableEq, Repr

/-- The point light `light1` (src/index.js lines 135–137). -/
structure Light where
  intensity : ℚ
  position : Vec3
deriving DecidableEq, Repr

/-- The `window.*` globals backing the GUI controls (src/index.js
lines 186–201). -/
structure WindowParams where
  envMapIntensity : ℚ
  lightIntensity : ℚ
  lightX : ℚ
  lightY : ℚ
  lightZ : ℚ
  rotation : ℚ
  defaultMetalness : ℚ
  defaultRoughness : ℚ
  metalness : ℚ
  roughness : ℚ
  toneMapping : ToneMappingTag
  toneMappingExposure : ℚ
deriving DecidableEq, Repr

/-- The initial values of the globals (src/index.js lines 186–201):
`window.metalness = window.defaultMetalness` and
`window.roughness = window.defaultRoughness`. -/
def initialWindow : WindowParams where
  envMapIntensity := 2257 / 1000
  lightIntensity := 3
  lightX := 1 / 4
  lightY := 3
  lightZ := -(9 / 4)
  rotation := 0
  defaultMetalness := 3 / 10
  defaultRoughness := 8 / 10
  metalness := 3 / 10
  roughness := 8 / 10
  toneMapping := .CineonToneMapping
  toneMappingExposure := 1 / 2

/-- The mutable scene state the GUI callbacks touch: the globals, the
renderer, the model's mesh children, the point light, `scene.environment`
(`none` until the HDR load completes), and the model root's y rotation. -/
structure State where
  window : WindowParams
  renderer : Renderer
  meshes : List Mesh
  light1 : Light
  environment : Option Environment
  rotationY : ℚ
deriving DecidableEq, Repr

/-- The per-mesh body of the metalness onChange traversal (src/index.js
lines 77–82): set `material.metalness` from the global, mark dirty. -/
def setMeshMetalness (v : ℚ) (m : Mesh) : Mesh :=
  { m with material := { m.material with metalness := v, needsUpdate := true } }

/-- The per-mesh body of the roughness onChange traversal (src/index.js
lines 85–90). -/
def setMeshRoughness (v : ℚ) (m : Mesh) : Mesh :=
  { m with material := { m.material with roughness := v, needsUpdate := true } }

/-- The per-mesh body of the tone-mapping onChange traversal (src/index.js
lines 105–111): write the resolved constant and the stored exposure onto the
material, mark dirty. -/
def setMeshToneMapping (tv : ℕ) (e : ℚ) (m : Mesh) : Mesh :=
  { m with material := { m.material with
      toneMapping := some tv, toneMappingExposure := some e, needsUpdate := true } }

/-- The per-mesh body of the one-time load pass (src/index.js lines 58–66):
default metalness/roughness from the globals, enable shadows, mark dirty. -/
def loadMeshDefaults (w : WindowParams) (m : Mesh) : Mesh :=
  { m with
    material := { m.material with
      metalness := w.defaultMetalness, roughness := w.defaultRoughness,
      needsUpdate := true },
    castShadow := true,
    receiveShadow := true }

/-- The one-time material pass run inside the model onLoad callback
(src/index.js lines 58–66), over all mesh children. -/
def loadMaterialPass (w : WindowParams) (meshes : List Mesh) : List Mesh :=
  meshes.map (loadMeshDefaults w)

/-- Metalness binding (src/index.js lines 76–83): the GUI writes
`window.metalness = v`, then the onChange traversal pushes it to every mesh. -/
def onMetalnessChange (v : ℚ) (s : State) : State :=
  let w := { s.window with metalness := v }
  { s with window := w, meshes := s.meshes.map (setMeshMetalness w.metalness) }

/-- Roughness binding (src/index.js lines 84–91). -/
def onRoughnessChange (v : ℚ) (s : State) : State :=
  let w := { s.window with roughness := v }
  { s with window := w, meshes := s.meshes.map (setMeshRoughness w.roughness) }

/-- Tone-mapping mode binding (src/index.js lines 95–112): the GUI writes
`window.toneMapping = v`, then the onChange resolves the constant, sets it on
the renderer together with the stored exposure, and mirrors both onto every
mesh material. -/
def onToneMappingChange (v : ToneMappingTag) (s : State) : State :=
  let w := { s.window with toneMapping := v }
  let tv := resolveToneMapping w.toneMapping
  { s with
    window := w
    renderer := { toneMapping := tv, toneMappingExposure := w.toneMappingExposure }
    meshes := s.meshes.map (setMeshToneMapping tv w.toneMappingExposure) }

/-- Exposure binding (src/index.js lines 113–117): the GUI writes
`window.toneMappingExposure = v`, then the onChange sets only the renderer's
exposure. -/
def onToneMappingExposureChange (v : ℚ) (s : State) : State :=
  let w := { s.window with toneMappingExposure := v }
  { s with
    window := w
    renderer := { s.renderer with toneMappingExposure := w.toneMappingExposure } }

/-- `updateEnvironment` (src/index.js lines 140–142):
`scene.environment.intensity = window.envMapIntensity`. When
`scene.environment` is null/undefined (HDR load not completed or failed) the
property access throws a TypeError, modelled as `none`. -/
def updateEnvironment (s : State) : Option State :=
  match s.environment with
  | none => none
  | some e => some { s with environment := some { e with intensity := some s.window.envMapIntensity } }

/-- Env-map-intensity binding (src/index.js line 121): the GUI writes
`window.envMapIntensity = v`, then calls `updateEnvironment`. -/
def onEnvMapIntensityChange (v : ℚ) (s : State) : Option State :=
  updateEnvironment { s with window := { s.window with envMapIntensity := v } }

/-- `updateLights` (src/index.js lines 145–148): copy the light globals onto
`light1`. -/
def updateLights (s : State) : State :=
  { s with light1 :=
      { intensity := s.window.lightIntensity,
        position := ⟨s.window.lightX, s.window.lightY, s.window.lightZ⟩ } }

/-- Light-intensity binding (src/index.js line 122). -/
def onLightIntensityChange (v : ℚ) (s : State) : State :=
  updateLights { s with window := { s.window with lightIntensity := v } }

/-- Light-X binding (src/index.js line 123). -/
def onLightXChange (v : ℚ) (s : State) : State :=
  updateLights { s with window := { s.window with lightX := v } }

/-- Light-Y binding (src/index.js line 124). -/
def onLightYChange (v : ℚ) (s : State) : State :=
  updateLights { s with window := { s.window with lightY := v } }

/-- Light-Z binding (src/index.js line 125). -/
def onLightZChange (v : ℚ) (s : State) : State :=
  updateLights { s with window := { s.window with lightZ := v } }

/-- Rotation binding (src/index.js lines 126–128): the GUI writes
`window.rotation = v`, then the onChange sets the model root's y rotation. -/
def onRotationChange (v : ℚ) (s : State) : State :=
  let w := { s.window with rotation := v }
  { s with window := w, rotationY := w.rotation }

/-- The GUI parameter bindings registered in the model onLoad callback
(src/index.js lines 76–128), each carrying the new in-range value the widget
delivers. -/
inductive Binding
  | metalness (v : ℚ)
  | roughness (v : ℚ)
  | toneMode (v : ToneMappingTag)
  | exposure (v : ℚ)
  | envMapIntensity (v : ℚ)
  | lightIntensity (v : ℚ)
  | lightX (v : ℚ)
  | lightY (v : ℚ)
  | lightZ (v : ℚ)
  | rotation (v : ℚ)

/-- Dispatch a binding's change callback on the state. Only the
env-map-intensity callback can throw (unguarded `scene.environment`
dereference), hence the `Option`. -/
def applyBinding : Binding → State → Option State
  | .metalness v, s => some (onMetalnessChange v s)
  | .roughness v, s => some (onRoughnessChange v s)
  | .toneMode v, s => some (onToneMappingChange v s)
  | .exposure v, s => some (onToneMappingExposureChange v s)
  | .envMapIntensity v, s => onEnvMapIntensityChange v s
  | .lightIntensity v, s => some (onLightIntensityChange v s)
  | .lightX v, s => some (onLightXChange v s)
  | .lightY v, s => some (onLightYChange v s)
  | .lightZ v, s => some (onLightZChange v s)
  | .rotation v, s => some (onRotationChange v s)

/-- The outcomes of the two independent asynchronous loads: whether the HDR
environment load and the model load each succeeded. -/
structure LoadOutcome where
  envOk : Bool
  modelOk : Bool
deriving DecidableEq, Repr

/-- Console log entries the setup script can emit about failed loads. -/
inductive LogEntry
  | modelLoadError
  | envLoadError
deriving DecidableEq, Repr

/-- What the scene contains after setup ran to completion. -/
structure SceneContents where
  hasAmbientLight : Bool
  hasDirectionalLight : Bool
  hasModel : Bool
  hasEnvironment : Bool
deriving DecidableEq, Repr

/-- The observable effect of the setup script (src/index.js) under the given
load outcomes: the ambient and directional lights are added unconditionally
at top level (lines 160–167); the model is added exactly when its load
succeeds (line 69) and the environment is assigned exactly when its load
succeeds (lines 33–34), each in its own callback with no ordering
dependency; the model loader registers an onError that logs with context
(line 157), while the HDR loader is invoked with only an onLoad callback
(lines 31–35) — no error handler — so a failing environment load emits no
log entry. -/
def runSetup (o : LoadOutcome) : SceneContents × List LogEntry :=
  ({ hasAmbientLight := true
     hasDirectionalLight := true
     hasModel := o.modelOk
     hasEnvironment := o.envOk },
   if o.modelOk then [] else [LogEntry.modelLoadError])

/-- A concrete mesh used to instantiate universally quantified theorems. -/
def sampleMesh : Mesh :=
  { material := { metalness := 1 / 2, roughness := 1 / 2, toneMapping := none,
                  toneMappingExposure := none, needsUpdate := false },
    castShadow := false, receiveShadow := false }

/-- A concrete scene state (globals at their initial values, renderer as set
up at lines 19–20, one mesh, the environment loaded) used to instantiate
universally quantified theorems. -/
def sampleState : State :=
  { window := initialWindow
    renderer := { toneMapping := 3, toneMappingExposure := 1 / 2 }
    meshes := [sampleMesh]
    light1 := { intensity := 3, position := ⟨1 / 4, 3, -(9 / 4)⟩ }
    environment := some { intensity := none }
    rotationY := 0 }

/-- C4: after the tone-mapping mode callback returns, the renderer's
tone-mapping state and every mesh material's tone-mapping state agree — both
equal the constant resolved from the enum tag. -/
theorem toneMapping_change_agrees (v : ToneMappingTag) (s : State) :
    (onToneMappingChange v s).renderer.toneMapping = resolveToneMapping v ∧
    ∀ m ∈ (onToneMappingChange v s).meshes,
      m.material.toneMapping = some (resolveToneMapping v) := by
  refine ⟨rfl, ?_⟩
  intro m hm
  simp only [onToneMappingChange, List.mem_map] at hm
  obtain ⟨a, -, rfl⟩ := hm
  rfl

/-- Witness for C4: switching the sample state to ACESFilmic sets renderer
constant 4 and the (only) mesh material's constant 4. -/
theorem toneMapping_change_agrees_witness :
    (onToneMappingChange ToneMappingTag.ACESFilmicToneMapping sampleState).renderer.toneMapping =
      resolveToneMapping ToneMappingTag.ACESFilmicToneMapping ∧
    (setMeshToneMapping 4 (1 / 2) sampleMesh).material.toneMapping =
      some (resolveToneMapping ToneMappingTag.ACESFilmicToneMapping) := by
  have h := toneMapping_change_agrees ToneMappingTag.ACESFilmicToneMapping sampleState
  exact ⟨h.1, h.2 (setMeshToneMapping 4 (1 / 2) sampleMesh) (List.mem_singleton.mpr rfl)⟩

/-- C5: the exposure callback writes the new value only to the renderer's
tone-mapping exposure; the meshes (hence every material), the renderer's
tone-mapping mode, the light, the environment and the rotation are
unchanged. -/
theorem exposure_change_renderer_only (v : ℚ) (s : State) :
    (onToneMappingExposureChange v s).renderer.toneMappingExposure = v ∧
    (onToneMappingExposureChange v s).renderer.toneMapping = s.renderer.toneMapping ∧
    (onToneMappingExposureChange v s).meshes = s.meshes ∧
    (onToneMappingExposureChange v s).light1 = s.light1 ∧
    (onToneMappingExposureChange v s).environment = s.environment ∧
    (onToneMappingExposureChange v s).rotationY = s.rotationY :=
  ⟨rfl, rfl, rfl, rfl, rfl, rfl⟩

/-- C10: the tone-mapping mode callback re-applies the stored exposure
parameter: it leaves the exposure parameter itself unchanged and writes its
current value to the renderer's exposure and to every mesh material's
exposure. -/
theorem toneMapping_change_reapplies_exposure (v : ToneMappingTag) (s : State) :
    (onToneMappingChange v s).window.toneMappingExposure = s.window.toneMappingExposure ∧
    (onToneMappingChange v s).renderer.toneMappingExposure = s.window.toneMappingExposure ∧
    ∀ m ∈ (onToneMappingChange v s).meshes,
      m.material.toneMappingExposure = some s.window.toneMappingExposure := by
  refine ⟨rfl, rfl, ?_⟩
  intro m hm
  simp only [onToneMappingChange, List.mem_map] at hm
  obtain ⟨a, -, rfl⟩ := hm
  rfl

/-- Witness for C10: a mode change to Reinhard on the sample state leaves
the exposure parameter at 1/2, sets the renderer exposure to 1/2, and sets
the (only) mesh material's exposure to 1/2. -/
theorem toneMapping_change_reapplies_exposure_witness :
    (onToneMappingChange ToneMappingTag.ReinhardToneMapping sampleState).window.toneMappingExposure
        = sampleState.window.toneMappingExposure ∧
    (onToneMappingChange ToneMappingTag.ReinhardToneMapping sampleState).renderer.toneMappingExposure
        = sampleState.window.toneMappingExposure ∧
    (setMeshToneMapping 2 (1 / 2) sampleMesh).material.toneMappingExposure =
      some sampleState.window.toneMappingExposure := by
  have h := toneMapping_change_reapplies_exposure ToneMappingTag.ReinhardToneMapping sampleState
  exact ⟨h.1, h.2.1, h.2.2 (setMeshToneMapping 2 (1 / 2) sampleMesh) (List.mem_singleton.mpr rfl)⟩

/-- C8: the env-map-intensity binding throws exactly when the scene has no
environment (HDR load not yet completed, or failed): the callback
dereferences `scene.environment` unguarded. -/
theorem envBinding_throws_iff_no_environment (v : ℚ) (s : State) :
    applyBinding (Binding.envMapIntensity v) s = none ↔ s.environment = none := by
  cases h : s.environment <;>
    simp [applyBinding, onEnvMapIntensityChange, updateEnvironment, h]

/-- C9: immediately after the one-time load pass, every mesh material's
metalness and roughness equal the initial values of the live metalness and
roughness parameters — both pairs are the defaults 0.3 and 0.8. -/
theorem load_pass_matches_initial_params (meshes : List Mesh) :
    ∀ m ∈ loadMaterialPass initialWindow meshes,
      m.material.metalness = initialWindow.metalness ∧
      m.material.roughness = initialWindow.roughness ∧
      initialWindow.metalness = 3 / 10 ∧ initialWindow.roughness = 8 / 10 := by
  intro m hm
  simp only [loadMaterialPass, List.mem_map] at hm
  obtain ⟨a, -, rfl⟩ := hm
  exact ⟨rfl, rfl, rfl, rfl⟩

/-- Witness for C9 on a one-mesh model. -/
theorem load_pass_matches_initial_params_witness :
    (loadMeshDefaults initialWindow sampleMesh).material.metalness = initialWindow.metalness ∧
    (loadMeshDefaults initialWindow sampleMesh).material.roughness = initialWindow.roughness ∧
    initialWindow.metalness = 3 / 10 ∧ initialWindow.roughness = 8 / 10 :=
  load_pass_matches_initial_params [sampleMesh]
    (loadMeshDefaults initialWindow sampleMesh) (List.mem_singleton.mpr rfl)

/-- C7 counterexample: when the environment load fails and the model load
succeeds, the setup logs nothing at all — in particular no entry for the
failed environment asset — refuting "if either asset load fails, the error
is logged with context". -/
theorem env_failure_not_logged :
    (runSetup { envOk := false, modelOk := true }).2 = [] ∧
    LogEntry.envLoadError ∉ (runSetup { envOk := false, modelOk := true }).2 := by
  exact ⟨rfl, by simp [runSetup]⟩

/-- C7 amended: ambient and directional lights are present regardless of
load outcomes; a model load failure is logged with context; an environment
load failure emits no log entry (no error handler is registered for the HDR
loader) but still lets the model load proceed, the scene then containing
lights plus the model; the setup function is total (no crash). -/
theorem setup_partial_state (o : LoadOutcome) :
    (runSetup o).1.hasAmbientLight = true ∧
    (runSetup o).1.hasDirectionalLight = true ∧
    (runSetup o).1.hasModel = o.modelOk ∧
    (o.modelOk = false → (runSetup o).2 = [LogEntry.modelLoadError]) ∧
    (o.envOk = false → LogEntry.envLoadError ∉ (runSetup o).2) := by
  obtain ⟨e, m⟩ := o
  cases e <;> cases m <;> refine ⟨rfl, rfl, rfl, ?_, ?_⟩ <;> simp [runSetup]

/-- Witness for the amended C7 at the outcome "environment failed, model
succeeded": the scene has both lights and the model, and no environment
error was logged. -/
theorem setup_partial_state_witness :
    (runSetup { envOk := false, modelOk := true }).1.hasAmbientLight = true ∧
    (runSetup { envOk := false, modelOk := true }).1.hasDirectionalLight = true ∧
    (runSetup { envOk := false, modelOk := true }).1.hasModel = true ∧
    LogEntry.envLoadError ∉ (runSetup { envOk := false, modelOk := true }).2 := by
  have h := setup_partial_state { envOk := false, modelOk := true }
  exact ⟨h.1, h.2.1, h.2.2.1, h.2.2.2.2 rfl⟩

lemma setMeshMetalness_idem (v : ℚ) (m : Mesh) :
    setMeshMetalness v (setMeshMetalness v m) = setMeshMetalness v m := rfl

lemma setMeshRoughness_idem (v : ℚ) (m : Mesh) :
    setMeshRoughness v (setMeshRoughness v m) = setMeshRoughness v m := rfl

lemma setMeshToneMapping_idem (tv : ℕ) (e : ℚ) (m : Mesh) :
    setMeshToneMapping tv e (setMeshToneMapping tv e m) = setMeshToneMapping tv e m := rfl

lemma onMetalnessChange_idem (v : ℚ) (s : State) :
    onMetalnessChange v (onMetalnessChange v s) = onMetalnessChange v s := by
  simp only [onMetalnessChange, List.map_map]
  simp [Function.comp_def, setMeshMetalness_idem]

lemma onRoughnessChange_idem (v : ℚ) (s : State) :
    onRoughnessChange v (onRoughnessChange v s) = onRoughnessChange v s := by
  simp only [onRoughnessChange, List.map_map]
  simp [Function.comp_def, setMeshRoughness_idem]

lemma onToneMappingChange_idem (v : ToneMappingTag) (s : State) :
    onToneMappingChange v (onToneMappingChange v s) = onToneMappingChange v s := by
  simp only [onToneMappingChange, List.map_map]
  simp [Function.comp_def, setMeshToneMapping_idem]

/-- C6: invoking any parameter binding's change callback twice with the same
value leaves the scene in the same state as invoking it once: if the first
invocation succeeds with state t, the second invocation on t succeeds and
returns t unchanged. -/
theorem binding_idempotent (b : Binding) (s t : State)
    (h : applyBinding b s = some t) : applyBinding b t = some t := by
  cases b with
  | metalness v =>
      simp only [applyBinding, Option.some.injEq] at h
      subst h
      exact congrArg some (onMetalnessChange_idem v s)
  | roughness v =>
      simp only [applyBinding, Option.some.injEq] at h
      subst h
      exact congrArg some (onRoughnessChange_idem v s)
  | toneMode v =>
      simp only [applyBinding, Option.some.injEq] at h
      subst h
      exact congrArg some (onToneMappingChange_idem v s)
  | exposure v =>
      simp only [applyBinding, Option.some.injEq] at h
      subst h
      rfl
  | envMapIntensity v =>
      simp only [applyBinding, onEnvMapIntensityChange, updateEnvironment] at h ⊢
      cases henv : s.environment with
      | none => rw [henv] at h; exact absurd h (by simp)
      | some e =>
          rw [henv] at h
          simp only [Option.some.injEq] at h
          subst h
          rfl
  | lightIntensity v =>
      simp only [applyBinding, Option.some.injEq] at h
      subst h
      rfl
  | lightX v =>
      simp only [applyBinding, Option.some.injEq] at h
      subst h
      rfl
  | lightY v =>
      simp only [applyBinding, Option.some.injEq] at h
      subst h
      rfl
  | lightZ v =>
      simp only [applyBinding, Option.some.injEq] at h
      subst h
      rfl
  | rotation v =>
      simp only [applyBinding, Option.some.injEq] at h
      subst h
      rfl

/-- Witness for C6: invoking the rotation binding with value 1 on the sample
state and then invoking it again with the same value returns the same state. -/
theorem binding_idempotent_witness :
    applyBinding (Binding.rotation 1) (onRotationChange 1 sampleState) =
      some (onRotationChange 1 sampleState) :=
  binding_idempotent (Binding.rotation 1) sampleState (onRotationChange 1 sampleState) rfl
